import Mathlib

/-!
# Verification of the expense-fraud rule library

Shallow embedding of the fraud-detection rules found under `src/llm_rules/` and
`src/llm-rules-partial-functions/rules/` of the repository, together with
theorems settling the frozen claims about them.

Timestamps are modelled as rational numbers of hours since an arbitrary epoch
(`datetime` subtraction and `total_seconds()/3600` become exact rational
arithmetic); a calendar date is the floor of the timestamp divided by 24.
Monetary amounts and distances are rationals.  The event-type hierarchy and the
shared helper functions live in `expensecbr.base` / `expensecbr.fde`, which are
not part of the sources; those pieces are modelled from the spec and are marked
as such in their doc comments.
-/

namespace ExpenseCbr

/-- Uncertain time window of an event (spec section 3): a bounded range
`[earliest_start, latest_end]` with optional exact boundaries.  The type is
deliberately permissive: it does not validate `exact_end_time` against
`exact_start_time` (spec section 9, reverse-time open question). -/
structure TimeWindow where
  earliest_start : ℚ
  latest_end : ℚ
  exact_start_time : Option ℚ := none
  exact_end_time : Option ℚ := none
  deriving DecidableEq, Repr

/-- A location: a city plus finer-grained optional fields (spec section 3). -/
structure Location where
  city : String
  specific_location : Option String := none
  full_address : Option String := none
  deriving DecidableEq, Repr

/-- Modelled from the spec: the event-type class hierarchy of `expensecbr.base`
is not under `src/`; spec section 3 lists the variants, represented here as a
closed tag (spec section 9 design note on tagged variants). -/
inductive EventKind where
  | flight
  | railway
  | taxi
  | fuel
  | hotel
  | dailyCheckIn
  deriving DecidableEq, Repr

/-- A trajectory event (spec section 3): base payload common to all variants,
with the optional fields the embedded rules read.  `from_location` /
`to_location` are present on directed transport variants; `location` on
single-point events. -/
structure Event where
  kind : EventKind
  event_id : String
  user_id : String
  user_name : String := ""
  department : String := ""
  time_window : TimeWindow
  location : Option Location := none
  from_location : Option Location := none
  to_location : Option Location := none
  amount : ℚ := 0
  is_self_paid : Bool := false
  hotel_name : String := ""
  guest_name : String := ""
  deriving DecidableEq, Repr

/-- Modelled from the spec: `isinstance(event, TransportEvent)` checks against
the `expensecbr.base` hierarchy, which is not under `src/`.  Transport variants
are the flight/railway/taxi modes of spec section 3; `FuelEvent` is included
because `fd_transport_reverse_time` lists it among its transport
`event_types`. -/
def is_transport_event (e : Event) : Bool :=
  match e.kind with
  | .flight => true
  | .railway => true
  | .taxi => true
  | .fuel => true
  | _ => false

/-- Modelled from the spec: the `context` configuration mapping (spec section
6).  Each field is `none` when the key is absent, in which case `context.get`
falls back to the rule's stated default. -/
structure Context where
  max_travel_speed_kmh : Option ℚ := none
  min_travel_hours : Option ℚ := none
  min_suspicious_distance : Option ℚ := none
  sequential_taxi_time_threshold : Option ℚ := none
  sequential_taxi_amount_threshold : Option ℚ := none
  sequential_taxi_min_rides : Option ℕ := none
  taxi_high_value_threshold : Option ℚ := none
  ubiquitous_min_city_count : Option ℕ := none
  ubiquitous_min_distance_km : Option ℚ := none
  ubiquitous_max_travel_speed_kmh : Option ℚ := none
  deriving DecidableEq, Repr

/-- Modelled from the spec: the injected city-distance table backing
`rule.get_distance` (spec section 4.2): a symmetric partial map from city pairs
to kilometres, `none` meaning unknown. -/
def DistTable : Type := List ((String × String) × ℚ)

/-- Modelled from the spec: `distance_km(cityA, cityB) -> float | unknown`
(spec section 4.2), a symmetric pure lookup returning `none` for unmapped
pairs. -/
def lookup_distance (tbl : DistTable) (c1 c2 : String) : Option ℚ :=
  match tbl.find? (fun p => p.1.1 == c1 && p.1.2 == c2) with
  | some p => some p.2
  | none =>
    match tbl.find? (fun p => p.1.1 == c2 && p.1.2 == c1) with
    | some p => some p.2
    | none => none

/-- Modelled from the spec: `rule.get_distance` of `expensecbr.fde` (spec
section 4.2) applied to the optional locations the rules pass it; a missing
location is MissingData (spec section 7), reported as `none`. -/
def get_distance (tbl : DistTable) : Option Location → Option Location → Option ℚ
  | some l1, some l2 => lookup_distance tbl l1.city l2.city
  | _, _ => none

/-- Modelled from the spec: `rule.is_same_city` / `same_city(locA, locB)`
(spec section 4.2): city equality; false when either location is missing
(MissingData, spec section 7). -/
def is_same_city : Option Location → Option Location → Bool
  | some l1, some l2 => l1.city == l2.city
  | _, _ => false

/-- Modelled from the spec: `rule.time_difference(a, b, unit="hours")` of
`expensecbr.fde`: the signed difference `b - a` in hours (the sign convention
is fixed by `fd_transport_reverse_time`, where a negative difference of start
and end means the end precedes the start). -/
def time_difference_hours (a b : ℚ) : ℚ := b - a

/-- Modelled from the spec: `rule.time_difference(a, b, unit="minutes")`,
the signed difference `b - a` in minutes. -/
def time_difference_minutes (a b : ℚ) : ℚ := (b - a) * 60

/-- The calendar date of a timestamp: `datetime.date()` modelled as the whole
day index `⌊t / 24⌋` of a timestamp counted in hours. -/
def dateOf (t : ℚ) : ℤ := ⌊t / 24⌋

/-- Python `a or b` applied to an optional datetime `a`: a `datetime` object is
always truthy, so the expression yields `a`'s value when present and `b`
otherwise.  This is the resolution idiom of
`fd_multi_transport_same_route_time_nofunc.py` lines 73-74 and
`fd_hotel_flight_temporal_conflict_nofunc.py` lines 45-46. -/
def pyOrTime (a : Option ℚ) (b : ℚ) : ℚ :=
  match a with
  | some t => t
  | none => b

/-- Effective start time of an event as computed by
`fd_multi_transport_same_route_time_nofunc.py` line 73:
`event.time_window.exact_start_time or event.time_window.earliest_start`. -/
def route_start_time (e : Event) : ℚ :=
  pyOrTime e.time_window.exact_start_time e.time_window.earliest_start

/-- Effective end time of an event as computed by
`fd_multi_transport_same_route_time_nofunc.py` line 74:
`event.time_window.exact_end_time or event.time_window.latest_end`. -/
def route_end_time (e : Event) : ℚ :=
  pyOrTime e.time_window.exact_end_time e.time_window.latest_end

/-- Hotel check-in time as computed by
`fd_hotel_flight_temporal_conflict_nofunc.py` line 45. -/
def check_in_time (e : Event) : ℚ :=
  pyOrTime e.time_window.exact_start_time e.time_window.earliest_start

/-- Hotel check-out time as computed by
`fd_hotel_flight_temporal_conflict_nofunc.py` line 46. -/
def check_out_time (e : Event) : ℚ :=
  pyOrTime e.time_window.exact_end_time e.time_window.latest_end

/-- The spec's resolution of an uncertain window (spec section 4.1,
`resolve_start`): "prefer exact time, fall back to bound"; "Effective start =
exact_start_time if present else earliest_start". -/
def resolve_start_spec (w : TimeWindow) : ℚ :=
  match w.exact_start_time with
  | some t => t
  | none => w.earliest_start

/-- The spec's resolution of an uncertain window (spec section 4.1,
`resolve_end`): "effective end analogous": `exact_end_time` if present else
`latest_end`. -/
def resolve_end_spec (w : TimeWindow) : ℚ :=
  match w.exact_end_time with
  | some t => t
  | none => w.latest_end

/-- The overlap test of `fd_multi_transport_same_route_time_nofunc.py` lines
111-114: `route1.start_time <= route2.end_time and route2.start_time <=
route1.end_time`, evaluated on the effective times of lines 73-74. -/
def times_overlap (e1 e2 : Event) : Bool :=
  decide (route_start_time e1 ≤ route_end_time e2) &&
    decide (route_start_time e2 ≤ route_end_time e1)

/-- One step of building a Python dict keyed by `user_id`: the idiom
`if event.user_id not in d: d[event.user_id] = []` followed by
`d[event.user_id].append(event)`; dict iteration preserves first-insertion
order of the keys. -/
def addToUserGroup (acc : List (String × List Event)) (e : Event) :
    List (String × List Event) :=
  if acc.any (fun p => p.1 == e.user_id) then
    acc.map (fun p => if p.1 == e.user_id then (p.1, p.2 ++ [e]) else p)
  else
    acc ++ [(e.user_id, [e])]

/-- Grouping a list of events by `user_id`, keys in first-insertion order, as
done by every rule that builds an `events_by_user` dict. -/
def groupByUser (events : List Event) : List (String × List Event) :=
  events.foldl addToUserGroup []

/-- One step of building a dict keyed by the calendar date of
`event.time_window.earliest_start` (e.g.
`fd_checkin_different_cities_same_day.py` lines 53-59). -/
def addToDateGroup (acc : List (ℤ × List Event)) (e : Event) :
    List (ℤ × List Event) :=
  if acc.any (fun p => p.1 == dateOf e.time_window.earliest_start) then
    acc.map (fun p =>
      if p.1 == dateOf e.time_window.earliest_start then (p.1, p.2 ++ [e]) else p)
  else
    acc ++ [(dateOf e.time_window.earliest_start, [e])]

/-- Grouping a list of events by the date of their earliest start. -/
def groupByDate (events : List Event) : List (ℤ × List Event) :=
  events.foldl addToDateGroup []

/-- One step of building the `cities_visited` dict keyed by
`event.location.city`, skipping events whose location or city is missing
(`fd_ubiquitous_presence.py` of `llm-rules-partial-functions`, lines
81-89: events without a truthy `location.city` are skipped). -/
def addToCityGroup (acc : List (String × List Event)) (e : Event) :
    List (String × List Event) :=
  match e.location with
  | none => acc
  | some loc =>
    if loc.city == "" then acc
    else if acc.any (fun p => p.1 == loc.city) then
      acc.map (fun p => if p.1 == loc.city then (p.1, p.2 ++ [e]) else p)
    else
      acc ++ [(loc.city, [e])]

/-- Grouping a list of events by city of their location, keys in
first-insertion order, skipping events without a city. -/
def groupByCity (events : List Event) : List (String × List Event) :=
  events.foldl addToCityGroup []

/-- A Python float as used by
`src/llm-rules-partial-functions/rules/fd_ubiquitous_presence.py`: either a
finite rational or positive infinity (`float('inf')`, line 40).  Only the
operations that rule performs are provided; none of them can produce a NaN
there because the only infinity is positive and the only division is by the
positive constant 300. -/
inductive FDist where
  | fin (q : ℚ)
  | inf
  deriving DecidableEq, Repr

/-- `d > q` for a possibly-infinite float `d` and a finite float `q`. -/
def FDist.gtQ (d : FDist) (q : ℚ) : Bool :=
  match d with
  | .inf => true
  | .fin x => decide (q < x)

/-- `d / q` for a possibly-infinite float `d` and a positive finite `q`
(IEEE: `inf / q = inf`). -/
def FDist.divQ (d : FDist) (q : ℚ) : FDist :=
  match d with
  | .inf => .inf
  | .fin x => .fin (x / q)

/-- `t < d` for a finite float `t` and a possibly-infinite float `d`
(IEEE: every finite float is less than `inf`). -/
def FDist.qLt (t : ℚ) (d : FDist) : Bool :=
  match d with
  | .inf => true
  | .fin x => decide (t < x)

/-- The `CITY_DISTANCES` table of
`src/llm-rules-partial-functions/rules/fd_ubiquitous_presence.py` lines 9-25:
approximate distances between major Chinese cities in kilometres. -/
def CITY_DISTANCES : List ((String × String) × ℚ) :=
  [(("北京市", "上海市"), 1318),
   (("北京市", "广州市"), 1952),
   (("北京市", "深圳市"), 1953),
   (("北京市", "成都市"), 1671),
   (("北京市", "武汉市"), 1052),
   (("上海市", "广州市"), 1213),
   (("上海市", "深圳市"), 1207),
   (("上海市", "成都市"), 1666),
   (("上海市", "武汉市"), 686),
   (("广州市", "深圳市"), 107),
   (("广州市", "成都市"), 1235),
   (("广州市", "武汉市"), 841),
   (("深圳市", "成都市"), 1308),
   (("深圳市", "武汉市"), 938),
   (("成都市", "武汉市"), 1043)]

/-- `MAX_REASONABLE_DAILY_TRAVEL_KM` of the same file, line 28. -/
def MAX_REASONABLE_DAILY_TRAVEL_KM : ℚ := 1200

/-- `get_city_distance` of
`src/llm-rules-partial-functions/rules/fd_ubiquitous_presence.py` lines 30-40:
looks the pair up in `CITY_DISTANCES` in both orders and returns
`float('inf')` when the pair is absent. -/
def get_city_distance (c1 c2 : String) : FDist :=
  match CITY_DISTANCES.find? (fun p => p.1.1 == c1 && p.1.2 == c2) with
  | some p => .fin p.2
  | none =>
    match CITY_DISTANCES.find? (fun p => p.1.1 == c2 && p.1.2 == c1) with
    | some p => .fin p.2
    | none => .inf

/-- Python `sorted(..., key=lambda e: e.time_window.earliest_start)` /
`list.sort(key=...)`: a stable sort by earliest start, modelled by stable
insertion sort. -/
def sort_by_earliest_start (l : List Event) : List Event :=
  List.insertionSort
    (fun a b => a.time_window.earliest_start ≤ b.time_window.earliest_start) l

/-- One impossible-city-pair record of
`src/llm-rules-partial-functions/rules/fd_ubiquitous_presence.py` lines
137-148. -/
structure UbiqNfPair where
  city1 : String
  city2 : String
  distance : FDist
  min_travel_hours : FDist
  city1_event_ids : List String
  city2_event_ids : List String
  city1_earliest : ℚ
  city1_latest : ℚ
  city2_earliest : ℚ
  city2_latest : ℚ
  deriving DecidableEq, Repr

/-- One fraud instance of the same file, lines 156-164.  `date` is the day
index the Python code formats as a string. -/
structure UbiqNfInstance where
  primary_event_id : String
  user_id : String
  user_name : String
  department : String
  date : ℤ
  impossible_city_pairs : List UbiqNfPair
  num_cities_visited : ℕ
  deriving DecidableEq, Repr

/-- The body of the city-pair loop of
`src/llm-rules-partial-functions/rules/fd_ubiquitous_presence.py` lines
101-148: distance via `get_city_distance` (infinity for unknown pairs),
spans of the per-city event lists after the in-place stable sort, the two
absolute time differences, the minimum travel time `distance / 300`,
and the impossibility test `time_diff1 < min_travel and time_diff2 <
min_travel`.  The per-city lists are nonempty by construction of
`groupByCity`; the `getD 0` defaults are unreachable. -/
def ubiq_nf_pair (city1 city2 : String) (city1_events city2_events : List Event) :
    Option UbiqNfPair :=
  let distance := get_city_distance city1 city2
  if distance.gtQ MAX_REASONABLE_DAILY_TRAVEL_KM then
    let s1 := sort_by_earliest_start city1_events
    let s2 := sort_by_earliest_start city2_events
    let city1_earliest := (s1.head?.map (fun e => e.time_window.earliest_start)).getD 0
    let city1_latest := (s1.getLast?.map (fun e => e.time_window.latest_end)).getD 0
    let city2_earliest := (s2.head?.map (fun e => e.time_window.earliest_start)).getD 0
    let city2_latest := (s2.getLast?.map (fun e => e.time_window.latest_end)).getD 0
    let time_diff1 := |city2_earliest - city1_latest|
    let time_diff2 := |city1_earliest - city2_latest|
    let min_travel_hours := distance.divQ 300
    if FDist.qLt time_diff1 min_travel_hours && FDist.qLt time_diff2 min_travel_hours then
      some { city1 := city1, city2 := city2, distance := distance,
             min_travel_hours := min_travel_hours,
             city1_event_ids := s1.map (fun e => e.event_id),
             city2_event_ids := s2.map (fun e => e.event_id),
             city1_earliest := city1_earliest, city1_latest := city1_latest,
             city2_earliest := city2_earliest, city2_latest := city2_latest }
    else none
  else none

/-- The `i < j` double loop over the visited cities (same file, lines
98-148), in dict-insertion order. -/
def ubiq_nf_pairs_loop : List (String × List Event) → List UbiqNfPair
  | [] => []
  | (c1, evs1) :: rest =>
    (rest.filterMap (fun p => ubiq_nf_pair c1 p.1 evs1 p.2)) ++ ubiq_nf_pairs_loop rest

/-- The per-date body of the same file, lines 73-164: skip single-event days,
build `cities_visited`, skip single-city days, collect impossible pairs and,
when any exist, report one fraud instance whose sample event is the first
daily event. -/
def ubiq_nf_date_step (user_id : String) (event_date : ℤ)
    (daily_events : List Event) : Option UbiqNfInstance :=
  if daily_events.length < 2 then none
  else
    let cities_visited := groupByCity daily_events
    if cities_visited.length < 2 then none
    else
      let pairs := ubiq_nf_pairs_loop cities_visited
      if pairs.isEmpty then none
      else
        match daily_events with
        | [] => none
        | sample :: _ =>
          some { primary_event_id := sample.event_id, user_id := user_id,
                 user_name := sample.user_name, department := sample.department,
                 date := event_date, impossible_city_pairs := pairs,
                 num_cities_visited := cities_visited.length }

/-- The per-user body of the same file, lines 60-164: skip users with fewer
than two events, then process each date group. -/
def ubiq_nf_user_step (user_id : String) (user_events : List Event) :
    List UbiqNfInstance :=
  if user_events.length < 2 then []
  else (groupByDate user_events).filterMap (fun p => ubiq_nf_date_step user_id p.1 p.2)

/-- `detect_ubiquitous_presence` of
`src/llm-rules-partial-functions/rules/fd_ubiquitous_presence.py` lines
42-166.  `none` is the Python `False` result.  The `context` argument is
unused by this rule, exactly as in the source. -/
def detect_ubiquitous_presence_nf (events : List Event) (_context : Context) :
    Option (List UbiqNfInstance) :=
  if events.isEmpty then none
  else
    let fraud_instances :=
      ((groupByUser events).map (fun p => ubiq_nf_user_step p.1 p.2)).flatten
    if fraud_instances.isEmpty then none else some fraud_instances

/-- An exception raised by Python code. -/
inductive PyErr where
  | attributeError
  | indexError
  deriving DecidableEq, Repr

/-- The list of the earliest starts and latest ends of a list of events:
`src/llm_rules/fd_ubiquitous_presence.py` lines 81-82. -/
def ubiq_times (events : List Event) : List ℚ :=
  events.map (fun e => e.time_window.earliest_start) ++
    events.map (fun e => e.time_window.latest_end)

/-- Python `min` over a nonempty list, modelled by folding `min` over the
whole list seeded with its head (the duplicated head is absorbed by `min`);
the `0` default is unreachable on nonempty input. -/
def pyMin (l : List ℚ) : ℚ := l.foldl min (l.headD 0)

/-- Python `max` over a nonempty list, analogous to `pyMin`. -/
def pyMax (l : List ℚ) : ℚ := l.foldl max (l.headD 0)

/-- One distant-city-pair record of `src/llm_rules/fd_ubiquitous_presence.py`
lines 96-104. -/
structure UbiqPairRecord where
  city1 : String
  city2 : String
  distance_km : ℚ
  min_travel_time_hours : ℚ
  available_time_hours : ℚ
  city1_event_id : String
  city2_event_id : String
  deriving DecidableEq, Repr

/-- The body of the city-pair loop of `src/llm_rules/fd_ubiquitous_presence.py`
lines 62-104: distance between the representative (first) events of the two
cities, skip when unknown or below `min_city_distance_km`; minimum travel time
`distance / max_travel_speed_kmh`; the two cross differences between the
city spans computed "most favorable for travel" (lines 89-92); the pair is
recorded when even the larger absolute difference is below the minimum travel
time. -/
def ubiquitous_pair_check (tbl : DistTable)
    (min_city_distance_km max_travel_speed_kmh : ℚ) (city1 city2 : String)
    (events1 events2 : List Event) : Option UbiqPairRecord :=
  match events1, events2 with
  | city1_event :: _, city2_event :: _ =>
    match get_distance tbl city1_event.location city2_event.location with
    | none => none
    | some distance =>
      if distance < min_city_distance_km then none
      else
        let min_travel_time := distance / max_travel_speed_kmh
        let city1_earliest := pyMin (ubiq_times events1)
        let city1_latest := pyMax (ubiq_times events1)
        let city2_earliest := pyMin (ubiq_times events2)
        let city2_latest := pyMax (ubiq_times events2)
        let time_diff_1to2 := time_difference_hours city1_earliest city2_latest
        let time_diff_2to1 := time_difference_hours city2_earliest city1_latest
        let max_time_diff := max |time_diff_1to2| |time_diff_2to1|
        if max_time_diff < min_travel_time then
          some { city1 := city1, city2 := city2, distance_km := distance,
                 min_travel_time_hours := min_travel_time,
                 available_time_hours := max_time_diff,
                 city1_event_id := city1_event.event_id,
                 city2_event_id := city2_event.event_id }
        else none
  | _, _ => none

/-- One suspicious-sequence record of `src/llm_rules/fd_impossible_sequence.py`
lines 84-97. -/
structure ImpFinding where
  primary_event_id : String
  user_id : String
  user_name : String
  first_event_id : String
  first_event_time : ℚ
  first_event_city : String
  second_event_id : String
  second_event_time : ℚ
  second_event_city : String
  time_between_events_hours : ℚ
  min_travel_time_hours : ℚ
  distance_km : ℚ
  deriving DecidableEq, Repr

/-- The transport-explanation loop of `src/llm_rules/fd_impossible_sequence.py`
lines 73-80.  Its condition reads, in order,
`transport.time_window.earliest_start >= event1.time_window.earliest_start`
and then `transport.time_window.latest_end <= event2.time_window.latest_start`;
the time-window type has no `latest_start` attribute, so whenever the first
conjunct holds the second raises `AttributeError`.  The loop therefore either
skips every transport (first conjunct false) or raises; it can never set
`has_transport_explanation` to true. -/
def has_transport_explanation (transport_events : List Event) (event1 : Event) :
    Except PyErr Bool :=
  match transport_events with
  | [] => .ok false
  | transport :: rest =>
    if event1.time_window.earliest_start ≤ transport.time_window.earliest_start then
      .error .attributeError
    else has_transport_explanation rest event1

/-- The body of the consecutive-pair loop of
`src/llm_rules/fd_impossible_sequence.py` lines 47-97: skip same-city pairs,
minimum travel time at the hard-coded 100 km/h, available time
`event2.earliest_start - event1.latest_end`, and — when the available time is
below the minimum — the transport-explanation search followed by the finding.
The behavior of the helpers `rule.get_distance` / `rule.calculate_travel_time`
on a missing location or unknown city pair is not under `src/`; it is
modelled from the spec (sections 4.2 and 7: MissingData and UnknownDistance
mean "cannot assess", skip the pairing). -/
def impossible_pair_step (tbl : DistTable) (transport_events : List Event)
    (user_id : String) (acc : List ImpFinding) (event1 event2 : Event) :
    Except PyErr (List ImpFinding) :=
  if is_same_city event1.location event2.location then .ok acc
  else
    match event1.location, event2.location with
    | some loc1, some loc2 =>
      match lookup_distance tbl loc1.city loc2.city with
      | none => .ok acc
      | some distance_km =>
        let min_travel_time_hours := distance_km / 100
        let time_between_events :=
          event2.time_window.earliest_start - event1.time_window.latest_end
        if time_between_events < min_travel_time_hours then
          match has_transport_explanation transport_events event1 with
          | .error e => .error e
          | .ok true => .ok acc
          | .ok false =>
            let f : ImpFinding :=
              { primary_event_id := event2.event_id, user_id := user_id,
                user_name := event2.user_name, first_event_id := event1.event_id,
                first_event_time := event1.time_window.latest_end,
                first_event_city := loc1.city, second_event_id := event2.event_id,
                second_event_time := event2.time_window.earliest_start,
                second_event_city := loc2.city,
                time_between_events_hours := time_between_events,
                min_travel_time_hours := min_travel_time_hours,
                distance_km := distance_km }
            .ok (acc ++ [f])
        else .ok acc
    | _, _ => .ok acc

/-- The loop over consecutive sorted events
(`src/llm_rules/fd_impossible_sequence.py` lines 47-49). -/
def impossible_pairs_loop (tbl : DistTable) (transport_events : List Event)
    (user_id : String) : List ImpFinding → List Event →
    Except PyErr (List ImpFinding)
  | acc, event1 :: event2 :: rest =>
    match impossible_pair_step tbl transport_events user_id acc event1 event2 with
    | .error e => .error e
    | .ok acc2 => impossible_pairs_loop tbl transport_events user_id acc2 (event2 :: rest)
  | acc, _ => .ok acc

/-- The per-user body of `src/llm_rules/fd_impossible_sequence.py` lines
35-97: skip users with fewer than two events, sort by earliest start, filter
the transport events, then scan consecutive pairs. -/
def impossible_user_step (tbl : DistTable) (acc : List ImpFinding)
    (user_id : String) (user_events : List Event) :
    Except PyErr (List ImpFinding) :=
  if user_events.length < 2 then .ok acc
  else
    let sorted_events := sort_by_earliest_start user_events
    let transport_events := sorted_events.filter is_transport_event
    impossible_pairs_loop tbl transport_events user_id acc sorted_events

/-- The loop over the per-user groups (same file, line 35), in dict-insertion
order; a raised exception aborts the whole detection call. -/
def impossible_users_loop (tbl : DistTable) :
    List ImpFinding → List (String × List Event) → Except PyErr (List ImpFinding)
  | acc, [] => .ok acc
  | acc, (user_id, user_events) :: rest =>
    match impossible_user_step tbl acc user_id user_events with
    | .error e => .error e
    | .ok acc2 => impossible_users_loop tbl acc2 rest

/-- `detect_impossible_travel` of `src/llm_rules/fd_impossible_sequence.py`
lines 8-99.  `ok none` is the Python `False` result; every event of the
embedding is a `TrajectoryEvent`, so the `isinstance` filter of line 25 keeps
all of them.  The rule reads no context key. -/
def detect_impossible_travel (tbl : DistTable) (events : List Event)
    (_context : Context) : Except PyErr (Option (List ImpFinding)) :=
  if events.length < 2 then .ok none
  else
    match impossible_users_loop tbl [] (groupByUser events) with
    | .error e => .error e
    | .ok l => .ok (if l.isEmpty then none else some l)

/-- The singleton guard opening every individually-grouped rule
(`src/llm_rules/fd_transport_reverse_time.py` line 22,
`src/llm_rules/fd_taxi_high_value.py` line 15):
`if not events or len(events) != 1`. -/
def failsSingletonGuard (events : List Event) : Bool :=
  events.isEmpty || events.length != 1

/-- Modelled from the spec: the individual grouping strategy of the grouping
engine (`expensecbr.fde` `create_individual_rule`, not under `src/`); per spec
section 4.4, "each event is its own singleton candidate group". -/
def individual_groups (events : List Event) : List (List Event) :=
  events.map (fun e => [e])

/-- `event.__class__.__name__` of an embedded event. -/
def kindName : EventKind → String
  | .flight => "FlightEvent"
  | .railway => "RailwayEvent"
  | .taxi => "TaxiEvent"
  | .fuel => "FuelEvent"
  | .hotel => "HotelEvent"
  | .dailyCheckIn => "DailyCheckInEvent"

/-- The finding of `src/llm_rules/fd_transport_reverse_time.py` lines 51-61. -/
structure ReverseTimeFinding where
  primary_event_id : String
  event_type : String
  start_time : ℚ
  end_time : ℚ
  time_diff_minutes : ℚ
  time_diff_formatted : String
  from_location : Option Location
  to_location : Option Location
  amount : ℚ
  deriving DecidableEq, Repr

/-- `detect_transport_reverse_time` of
`src/llm_rules/fd_transport_reverse_time.py` lines 13-63: singleton guard,
transport check, return `False` unless both exact times are present (a
`datetime` is always truthy, so Python `not x` means `x is None`), then flag
when the signed difference start-to-end in minutes is negative.  `none` is the
Python `False` result; the formatted string uses Python `//` and `%` on the
nonnegative absolute difference, i.e. floors. -/
def detect_transport_reverse_time (events : List Event) (_context : Context) :
    Option ReverseTimeFinding :=
  if failsSingletonGuard events then none
  else
    match events with
    | [] => none
    | event :: _ =>
      if !is_transport_event event then none
      else
        match event.time_window.exact_start_time, event.time_window.exact_end_time with
        | some start_time, some end_time =>
          let time_diff_minutes := time_difference_minutes start_time end_time
          if time_diff_minutes < 0 then
            let abs_diff_minutes := |time_diff_minutes|
            let hours : ℤ := ⌊abs_diff_minutes / 60⌋
            let minutes : ℤ := ⌊abs_diff_minutes - 60 * (hours : ℚ)⌋
            some { primary_event_id := event.event_id,
                   event_type := kindName event.kind,
                   start_time := start_time, end_time := end_time,
                   time_diff_minutes := time_diff_minutes,
                   time_diff_formatted :=
                     toString hours ++ "h " ++ toString minutes ++ "m",
                   from_location := event.from_location,
                   to_location := event.to_location,
                   amount := event.amount }
          else none
        | _, _ => none

/-- The finding of `src/llm_rules/fd_taxi_high_value.py` lines 29-34. -/
structure HighValueTaxiFinding where
  primary_event_id : String
  amount : ℚ
  threshold : ℚ
  excess_amount : ℚ
  deriving DecidableEq, Repr

/-- `detect_high_value_taxi` of `src/llm_rules/fd_taxi_high_value.py` lines
7-36: singleton guard, skip non-taxi or self-paid events, threshold from the
context (default 50.0), flag strictly above the threshold. -/
def detect_high_value_taxi (events : List Event) (context : Context) :
    Option HighValueTaxiFinding :=
  if failsSingletonGuard events then none
  else
    match events with
    | [] => none
    | event :: _ =>
      if !(event.kind == .taxi) || event.is_self_paid then none
      else
        let threshold := context.taxi_high_value_threshold.getD 50
        if threshold < event.amount then
          some { primary_event_id := event.event_id, amount := event.amount,
                 threshold := threshold, excess_amount := event.amount - threshold }
        else none

/-- One suspicious-pair record of
`src/llm_rules/fd_checkin_different_cities_same_day.py` lines 111-121. -/
structure SuspiciousPair where
  event1_id : String
  event2_id : String
  distance_km : ℚ
  time_diff_hours : ℚ
  required_travel_hours : ℚ
  city1 : String
  city2 : String
  time1 : ℚ
  time2 : ℚ
  deriving DecidableEq, Repr

/-- The body of the pair loop of
`src/llm_rules/fd_checkin_different_cities_same_day.py` lines 69-121: skip
same-city pairs, skip unknown or short distances, required travel time
`distance / max_travel_speed + min_travel_hours`, the absolute time difference
from `event1.latest_end` to `event2.earliest_start`, re-computed with the
events swapped when the first is not below the requirement, and a pair record
when the final difference is strictly below the requirement. -/
def checkin_pair_check (tbl : DistTable)
    (max_travel_speed min_travel_hours min_suspicious_distance : ℚ)
    (event1 event2 : Event) : Option SuspiciousPair :=
  if is_same_city event1.location event2.location then none
  else
    match event1.location, event2.location with
    | some loc1, some loc2 =>
      match lookup_distance tbl loc1.city loc2.city with
      | none => none
      | some distance =>
        if distance < min_suspicious_distance then none
        else
          let required_travel_time := distance / max_travel_speed + min_travel_hours
          let first_diff :=
            |time_difference_hours event1.time_window.latest_end
              event2.time_window.earliest_start|
          let time_diff_hours :=
            if required_travel_time ≤ first_diff then
              |time_difference_hours event2.time_window.latest_end
                event1.time_window.earliest_start|
            else first_diff
          if time_diff_hours < required_travel_time then
            some { event1_id := event1.event_id, event2_id := event2.event_id,
                   distance_km := distance, time_diff_hours := time_diff_hours,
                   required_travel_hours := required_travel_time,
                   city1 := loc1.city, city2 := loc2.city,
                   time1 := event1.time_window.earliest_start,
                   time2 := event2.time_window.earliest_start }
          else none
    | _, _ => none

/-- The `i < j` double loop over a day's check-ins (same file, lines
69-121). -/
def checkin_pairs_loop (tbl : DistTable)
    (max_travel_speed min_travel_hours min_suspicious_distance : ℚ) :
    List Event → List SuspiciousPair
  | [] => []
  | event1 :: rest =>
    (rest.filterMap (fun event2 =>
      checkin_pair_check tbl max_travel_speed min_travel_hours
        min_suspicious_distance event1 event2)) ++
      checkin_pairs_loop tbl max_travel_speed min_travel_hours
        min_suspicious_distance rest

/-- The city of a check-in event; check-in events carry a location (spec
section 3), the empty-string default covers only the unreachable missing
case. -/
def cityOfEvent (e : Event) : String :=
  (e.location.map Location.city).getD ""

/-- One alert record of the same file, lines 128-139.  `distinct_cities`
is `list(set(...))` in Python; the set's iteration order is an implementation
artifact, modelled as first-occurrence deduplication. -/
structure CheckinPattern where
  primary_event_id : String
  user_id : String
  user_name : String
  department : String
  date : ℤ
  suspicious_pairs : List SuspiciousPair
  distinct_cities : List String
  checkin_count : ℕ
  deriving DecidableEq, Repr

/-- The per-date body of the same file, lines 62-139. -/
def checkin_date_step (tbl : DistTable)
    (max_travel_speed min_travel_hours min_suspicious_distance : ℚ)
    (event_date : ℤ) (daily_checkins : List Event) : Option CheckinPattern :=
  if daily_checkins.length < 2 then none
  else
    let suspicious_pairs :=
      checkin_pairs_loop tbl max_travel_speed min_travel_hours
        min_suspicious_distance daily_checkins
    if suspicious_pairs.isEmpty then none
    else
      match daily_checkins with
      | [] => none
      | ref_event :: _ =>
        some { primary_event_id := ref_event.event_id,
               user_id := ref_event.user_id, user_name := ref_event.user_name,
               department := ref_event.department, date := event_date,
               suspicious_pairs := suspicious_pairs,
               distinct_cities := (daily_checkins.map cityOfEvent).eraseDups,
               checkin_count := daily_checkins.length }

/-- The per-user body of the same file, lines 47-139. -/
def checkin_user_step (tbl : DistTable)
    (max_travel_speed min_travel_hours min_suspicious_distance : ℚ)
    (user_events : List Event) : List CheckinPattern :=
  if user_events.length < 2 then []
  else
    (groupByDate user_events).filterMap (fun p =>
      checkin_date_step tbl max_travel_speed min_travel_hours
        min_suspicious_distance p.1 p.2)

/-- `detect_same_day_multi_city_checkins` of
`src/llm_rules/fd_checkin_different_cities_same_day.py` lines 8-141: filter
check-in events, guard, context thresholds with their stated defaults
(`max_travel_speed_kmh` 200.0, `min_travel_hours` 1.0,
`min_suspicious_distance` 150.0), then the per-user/per-date scan.  `none`
is the Python `False` result. -/
def detect_same_day_multi_city_checkins (tbl : DistTable) (events : List Event)
    (context : Context) : Option (List CheckinPattern) :=
  let checkin_events := events.filter (fun e => e.kind == .dailyCheckIn)
  if checkin_events.length < 2 then none
  else
    let max_travel_speed := context.max_travel_speed_kmh.getD 200
    let min_travel_hours := context.min_travel_hours.getD 1
    let min_suspicious_distance := context.min_suspicious_distance.getD 150
    let suspicious_patterns :=
      ((groupByUser checkin_events).map (fun p =>
        checkin_user_step tbl max_travel_speed min_travel_hours
          min_suspicious_distance p.2)).flatten
    if suspicious_patterns.isEmpty then none else some suspicious_patterns

/-- The suspicious-pattern record of `src/llm_rules/fd_taxi_sequential_rides.py`
lines 109-124.  No value of this type is ever constructed: the code that would
build it sits behind the sort of line 46, which always raises (see
`sorted_by_time_interval`). -/
structure SeqTaxiFinding where
  primary_event_id : String
  related_event_ids : List String
  user_id : String
  user_name : String
  department : String
  total_amount : ℚ
  ride_count : ℕ
  total_distance : ℚ
  time_span : ℚ
  avg_amount_per_ride : ℚ
  sequence_start : ℚ
  sequence_end : ℚ
  deriving DecidableEq, Repr

/-- `sorted(user_taxi_events, key=lambda e: e.time_interval.earliest_start)`
(`src/llm_rules/fd_taxi_sequential_rides.py` lines 46-48): trajectory events
define `time_window`, not `time_interval` (every other rule and the spec data
model use `time_window`), so computing the key raises `AttributeError` for any
nonempty list; sorting an empty list computes no key. -/
def sorted_by_time_interval (l : List Event) : Except PyErr (List Event) :=
  match l with
  | [] => .ok []
  | _ :: _ => .error .attributeError

/-- The per-user body of `src/llm_rules/fd_taxi_sequential_rides.py` lines
40-124: skip users below `min_rides`, then sort by the nonexistent
`time_interval` attribute.  On the only sort result that does not raise (the
empty list), line 52 `current_sequence = [sorted_events[0]]` raises
`IndexError`; the nonempty `ok` branch is unreachable, so the sequence- and
amount-analysis that follows it in the source is dead code. -/
def seq_taxi_user_step (min_rides : ℕ) (acc : List SeqTaxiFinding)
    (user_taxi_events : List Event) : Except PyErr (List SeqTaxiFinding) :=
  if user_taxi_events.length < min_rides then .ok acc
  else
    match sorted_by_time_interval user_taxi_events with
    | .error e => .error e
    | .ok [] => .error .indexError
    | .ok (_ :: _) => .ok acc

/-- The loop over the per-user groups (same file, line 40), in dict-insertion
order. -/
def seq_taxi_users_loop (min_rides : ℕ) :
    List SeqTaxiFinding → List (String × List Event) →
    Except PyErr (List SeqTaxiFinding)
  | acc, [] => .ok acc
  | acc, (_, user_taxi_events) :: rest =>
    match seq_taxi_user_step min_rides acc user_taxi_events with
    | .error e => .error e
    | .ok acc2 => seq_taxi_users_loop min_rides acc2 rest

/-- `detect_sequential_taxi_rides` of
`src/llm_rules/fd_taxi_sequential_rides.py` lines 7-126: filter taxi events,
the hard-coded guard of fewer than 3 rides, context thresholds with their
stated defaults (`sequential_taxi_time_threshold` 0.5,
`sequential_taxi_amount_threshold` 150.0, `sequential_taxi_min_rides` 3),
then the per-user analysis.  `ok none` is the Python `False` result. -/
def detect_sequential_taxi_rides (events : List Event) (context : Context) :
    Except PyErr (Option (List SeqTaxiFinding)) :=
  let taxi_events := events.filter (fun e => e.kind == .taxi)
  if taxi_events.length < 3 then .ok none
  else
    let _time_threshold := context.sequential_taxi_time_threshold.getD (1 / 2)
    let _amount_threshold := context.sequential_taxi_amount_threshold.getD 150
    let min_rides := context.sequential_taxi_min_rides.getD 3
    match seq_taxi_users_loop min_rides [] (groupByUser taxi_events) with
    | .error e => .error e
    | .ok l => .ok (if l.isEmpty then none else some l)

/-! ### Concrete sample data used by witnesses and counterexamples -/

/-- A two-city distance table: cities `"A"` and `"B"` are 100 km apart. -/
def tblAB : DistTable := [(("A", "B"), 100)]

/-- Check-in in city `"A"`, window 00:00-10:00 of day 0, no exact times. -/
def cexE1 : Event :=
  { kind := .dailyCheckIn, event_id := "E1", user_id := "u1", user_name := "U",
    department := "D", time_window := { earliest_start := 0, latest_end := 10 },
    location := some { city := "A" } }

/-- Check-in in city `"B"`, window 01:00-11:00 of day 0, no exact times. -/
def cexE2 : Event :=
  { kind := .dailyCheckIn, event_id := "E2", user_id := "u1", user_name := "U",
    department := "D", time_window := { earliest_start := 1, latest_end := 11 },
    location := some { city := "B" } }

/-- A flight of the same user, earliest start 02:00. -/
def cexTr : Event :=
  { kind := .flight, event_id := "T1", user_id := "u1", user_name := "U",
    department := "D", time_window := { earliest_start := 2, latest_end := 3 },
    from_location := some { city := "A" }, to_location := some { city := "B" } }

/-- Check-in in `"杭州市"`, a city absent from `CITY_DISTANCES`. -/
def nfE1 : Event :=
  { kind := .dailyCheckIn, event_id := "E1", user_id := "u1", user_name := "U",
    department := "D", time_window := { earliest_start := 1, latest_end := 2 },
    location := some { city := "杭州市" } }

/-- Check-in in `"西安市"`, also absent from `CITY_DISTANCES`; the pair is
unknown to the table. -/
def nfE2 : Event :=
  { kind := .dailyCheckIn, event_id := "E2", user_id := "u1", user_name := "U",
    department := "D", time_window := { earliest_start := 3, latest_end := 4 },
    location := some { city := "西安市" } }

/-- The impossible-city-pair record the partial-functions
`detect_ubiquitous_presence` builds from `nfE1` / `nfE2`: the unknown pair is
carried with infinite distance and infinite minimum travel time. -/
def nfPair : UbiqNfPair :=
  { city1 := "杭州市", city2 := "西安市", distance := .inf,
    min_travel_hours := .inf, city1_event_ids := ["E1"],
    city2_event_ids := ["E2"], city1_earliest := 1, city1_latest := 2,
    city2_earliest := 3, city2_latest := 4 }

/-- The fraud instance the partial-functions `detect_ubiquitous_presence`
reports for `nfE1` / `nfE2`. -/
def nfInstance : UbiqNfInstance :=
  { primary_event_id := "E1", user_id := "u1", user_name := "U",
    department := "D", date := 0, impossible_city_pairs := [nfPair],
    num_cities_visited := 2 }

/-- An event with a reversed effective interval: exact start 05:00, exact end
00:00, inside stated bounds 00:00-10:00 (the permissive window the repository
deliberately admits; `fd_transport_reverse_time` exists to flag exactly
these). -/
def revWinEvent : Event :=
  { kind := .flight, event_id := "R1", user_id := "u1",
    time_window := { earliest_start := 0, latest_end := 10,
                     exact_start_time := some 5, exact_end_time := some 0 } }

/-- A plain event with window 00:00-10:00. -/
def plainEventA : Event :=
  { kind := .railway, event_id := "N1", user_id := "u1",
    time_window := { earliest_start := 0, latest_end := 10 } }

/-- A plain event with window 10:00-20:00, touching `plainEventA` at 10:00. -/
def plainEventB : Event :=
  { kind := .railway, event_id := "N2", user_id := "u1",
    time_window := { earliest_start := 10, latest_end := 20 } }

/-- A transport event whose exact end (13:30) precedes its exact start
(14:00). -/
def revTimeEvent : Event :=
  { kind := .flight, event_id := "RT1", user_id := "u1",
    time_window := { earliest_start := 13, latest_end := 15,
                     exact_start_time := some 14, exact_end_time := some (27 / 2) } }

/-- A transport event lacking an exact start time. -/
def noExactEvent : Event :=
  { kind := .flight, event_id := "RT2", user_id := "u1",
    time_window := { earliest_start := 13, latest_end := 15,
                     exact_end_time := some 14 } }

/-- The distance table for the amended-C1 witness: `"P"` and `"Q"` are
600 km apart. -/
def tblPQ : DistTable := [(("P", "Q"), 600)]

/-- Event in city `"P"`, window 00:00-01:00. -/
def eP : Event :=
  { kind := .hotel, event_id := "P1", user_id := "u1",
    time_window := { earliest_start := 0, latest_end := 1 },
    location := some { city := "P" } }

/-- Event in city `"Q"`, window 00:00-01:00, too close to `eP` for 600 km. -/
def eQ : Event :=
  { kind := .hotel, event_id := "Q1", user_id := "u1",
    time_window := { earliest_start := 0, latest_end := 1 },
    location := some { city := "Q" } }

/-- The pair record `ubiquitous_pair_check` produces for `eP` / `eQ`. -/
def rPQ : UbiqPairRecord :=
  { city1 := "P", city2 := "Q", distance_km := 600,
    min_travel_time_hours := 6 / 5, available_time_hours := 1,
    city1_event_id := "P1", city2_event_id := "Q1" }

/-- Three same-day taxi rides of one user (for the sequential-taxi claim). -/
def taxi1 : Event :=
  { kind := .taxi, event_id := "X1", user_id := "u1", amount := 60,
    time_window := { earliest_start := 1, latest_end := 2 } }

/-- Second taxi ride. -/
def taxi2 : Event :=
  { kind := .taxi, event_id := "X2", user_id := "u1", amount := 60,
    time_window := { earliest_start := 2, latest_end := 3 } }

/-- Third taxi ride. -/
def taxi3 : Event :=
  { kind := .taxi, event_id := "X3", user_id := "u1", amount := 60,
    time_window := { earliest_start := 3, latest_end := 4 } }

/-! ### Shared lemmas about the grouping helpers -/

theorem foldl_addToUserGroup_const (u : String) (l : List Event) :
    ∀ g : List Event, (∀ e ∈ l, e.user_id = u) →
      List.foldl addToUserGroup [(u, g)] l = [(u, g ++ l)] := by
  induction l with
  | nil => intro g _; simp
  | cons e t ih =>
    intro g h
    have he : e.user_id = u := h e (by simp)
    have ht : ∀ x ∈ t, x.user_id = u := fun x hx => h x (by simp [hx])
    have hstep : addToUserGroup [(u, g)] e = [(u, g ++ [e])] := by
      simp [addToUserGroup, he]
    rw [List.foldl_cons, hstep, ih (g ++ [e]) ht]
    simp

theorem groupByUser_const (u : String) (l : List Event) (hne : l ≠ [])
    (h : ∀ e ∈ l, e.user_id = u) : groupByUser l = [(u, l)] := by
  cases l with
  | nil => exact absurd rfl hne
  | cons e t =>
    have he : e.user_id = u := h e (by simp)
    have ht : ∀ x ∈ t, x.user_id = u := fun x hx => h x (by simp [hx])
    have hstep : addToUserGroup [] e = [(u, [e])] := by
      simp [addToUserGroup, he]
    rw [groupByUser, List.foldl_cons, hstep,
      foldl_addToUserGroup_const u t [e] ht]
    simp

/-! ### Claim theorems -/

/-- **C6**: for every time window, the effective (resolved) start equals
`exact_start_time` when present and `earliest_start` otherwise, and the
effective end equals `exact_end_time` when present and `latest_end` otherwise;
the resolution sites cited by the claim
(`fd_multi_transport_same_route_time_nofunc.py` lines 72-74 and
`fd_hotel_flight_temporal_conflict_nofunc.py` lines 45-46, embedded as
`route_start_time` / `route_end_time` / `check_in_time` / `check_out_time`)
all agree with the spec's `resolve_start` / `resolve_end` preference order.
Every other resolution site in `src/` uses the identical
`exact_x or bound` idiom. -/
theorem effective_resolution_prefers_exact :
    ∀ e : Event,
      route_start_time e = resolve_start_spec e.time_window ∧
      route_end_time e = resolve_end_spec e.time_window ∧
      check_in_time e = resolve_start_spec e.time_window ∧
      check_out_time e = resolve_end_spec e.time_window := by
  intro e
  refine ⟨?_, ?_, ?_, ?_⟩ <;>
    cases e.time_window.exact_start_time <;>
    cases e.time_window.exact_end_time <;>
    simp [route_start_time, route_end_time, check_in_time, check_out_time,
      pyOrTime, resolve_start_spec, resolve_end_spec]

/-- **C3, counterexample**: the claim says the overlap test returns true *iff*
`max(start1, start2) <= min(end1, end2)` over the effective intervals, for
every pair of time windows.  That fails on a window with a reversed effective
interval (exact start 05:00, exact end 00:00) — a shape the data model
deliberately admits (spec sections 3 and 9; `fd_transport_reverse_time`
detects exactly these): the code's pairwise test returns true while
`max(5, 0) <= min(0, 10)` is false. -/
theorem times_overlap_not_iff_max_min :
    times_overlap revWinEvent plainEventA = true ∧
    ¬(max (route_start_time revWinEvent) (route_start_time plainEventA) ≤
        min (route_end_time revWinEvent) (route_end_time plainEventA)) := by
  decide

/-- **C3, amended**: for windows whose effective intervals are well-formed
(effective start at most effective end), the overlap test of
`fd_multi_transport_same_route_time_nofunc.py` lines 111-114 is equivalent to
`max(start1, start2) <= min(end1, end2)`; the intervals are closed, so the
comparisons are non-strict and touching endpoints count as overlap.  (On
reversed windows the code's two cross comparisons can hold while the
`max  <= min` characterization fails, see the counterexample.) -/
theorem times_overlap_iff_max_min_of_wf (e1 e2 : Event)
    (h1 : route_start_time e1 ≤ route_end_time e1)
    (h2 : route_start_time e2 ≤ route_end_time e2) :
    times_overlap e1 e2 = true ↔
      max (route_start_time e1) (route_start_time e2) ≤
        min (route_end_time e1) (route_end_time e2) := by
  simp only [times_overlap, Bool.and_eq_true, decide_eq_true_eq,
    max_le_iff, le_min_iff]
  constructor
  · rintro ⟨a, b⟩
    exact ⟨⟨h1, b⟩, a, h2⟩
  · rintro ⟨⟨-, b⟩, a, -⟩
    exact ⟨a, b⟩

/-- Witness for the amended C3 theorem: two well-formed windows 00:00-10:00
and 10:00-20:00 touch at 10:00; the equivalence applies and both sides are
true, so touching endpoints count as overlapping. -/
theorem times_overlap_iff_max_min_of_wf_witness :
    (times_overlap plainEventA plainEventB = true ↔
      max (route_start_time plainEventA) (route_start_time plainEventB) ≤
        min (route_end_time plainEventA) (route_end_time plainEventB)) ∧
    times_overlap plainEventA plainEventB = true :=
  ⟨times_overlap_iff_max_min_of_wf plainEventA plainEventB (by decide) (by decide),
   by decide⟩

/-- **C7**: under the individual grouping strategy (modelled from spec section
4.4, the engine being outside `src/`), every candidate group is a singleton,
and the singleton guard `if not events or len(events) != 1` that opens
`detect_transport_reverse_time` and `detect_high_value_taxi` never rejects a
group the engine produced. -/
theorem individual_grouping_singleton (events : List Event) (g : List Event)
    (hg : g ∈ individual_groups events) :
    g.length = 1 ∧ failsSingletonGuard g = false := by
  simp only [individual_groups, List.mem_map]
    at hg
  obtain ⟨e, -, rfl⟩ := hg
  constructor
  · rfl
  · rfl

/-- Witness for C7 at a concrete event list. -/
theorem individual_grouping_singleton_witness :
    [plainEventA].length = 1 ∧ failsSingletonGuard [plainEventA] = false :=
  individual_grouping_singleton [plainEventA, plainEventB] [plainEventA]
    (by decide)

/-- **C4**: on a singleton group holding a transport event whose exact start
and end are both present with the end strictly earlier than the start,
`detect_transport_reverse_time` returns a finding whose `primary_event_id` is
that event's id; when either exact time is missing it returns `False` — the
window type admits the reversed window and the dedicated rule reports it. -/
theorem transport_reverse_time_spec :
    (∀ (e : Event) (ctx : Context) (s t : ℚ),
        is_transport_event e = true →
        e.time_window.exact_start_time = some s →
        e.time_window.exact_end_time = some t →
        t < s →
        (detect_transport_reverse_time [e] ctx).map ReverseTimeFinding.primary_event_id
          = some e.event_id) ∧
    (∀ (e : Event) (ctx : Context),
        e.time_window.exact_start_time = none ∨
          e.time_window.exact_end_time = none →
        detect_transport_reverse_time [e] ctx = none) := by
  constructor
  · intro e ctx s t htr hs ht hlt
    have hneg : time_difference_minutes s t < 0 := by
      have : t - s < 0 := by linarith
      have := mul_neg_of_neg_of_pos this (by norm_num : (0 : ℚ) < 60)
      simpa [time_difference_minutes] using this
    simp [detect_transport_reverse_time, failsSingletonGuard, htr, hs, ht, hneg]
  · intro e ctx hmiss
    rcases hmiss with hs | ht
    · cases hend : e.time_window.exact_end_time <;>
        simp [detect_transport_reverse_time, failsSingletonGuard, hs, hend]
    · cases hstart : e.time_window.exact_start_time <;>
        simp [detect_transport_reverse_time, failsSingletonGuard, hstart, ht]

/-- Witness for C4: a flight with exact start 14:00 and exact end 13:30 is
flagged with itself as primary event; a transport event missing its exact
start yields `False`. -/
theorem transport_reverse_time_spec_witness :
    (detect_transport_reverse_time [revTimeEvent] {}).map
        ReverseTimeFinding.primary_event_id = some "RT1" ∧
    detect_transport_reverse_time [noExactEvent] {} = none :=
  ⟨transport_reverse_time_spec.1 revTimeEvent {} 14 (27 / 2) (by decide) rfl rfl
      (by norm_num),
   transport_reverse_time_spec.2 noExactEvent {} (Or.inl rfl)⟩

/-- **C5**: for a pair of check-ins in different cities whose distance is known
and at least `min_suspicious_distance`, the pair is flagged iff the available
time — the smaller of the two direction-wise absolute gaps the code compares —
is strictly below `distance / max_travel_speed + min_travel_hours`; at exact
equality no pair record is produced. -/
theorem checkin_threshold_boundary (tbl : DistTable)
    (max_travel_speed min_travel_hours min_suspicious_distance : ℚ)
    (event1 event2 : Event) (l1 l2 : Location) (d : ℚ)
    (h1 : event1.location = some l1) (h2 : event2.location = some l2)
    (hcity : l1.city ≠ l2.city)
    (hd : lookup_distance tbl l1.city l2.city = some d)
    (hmin : min_suspicious_distance ≤ d) :
    ((checkin_pair_check tbl max_travel_speed min_travel_hours
        min_suspicious_distance event1 event2).isSome ↔
      min |event2.time_window.earliest_start - event1.time_window.latest_end|
          |event1.time_window.earliest_start - event2.time_window.latest_end|
        < d / max_travel_speed + min_travel_hours) ∧
    (min |event2.time_window.earliest_start - event1.time_window.latest_end|
        |event1.time_window.earliest_start - event2.time_window.latest_end|
        = d / max_travel_speed + min_travel_hours →
      checkin_pair_check tbl max_travel_speed min_travel_hours
        min_suspicious_distance event1 event2 = none) := by
  have hsc : is_same_city (some l1) (some l2) = false := by
    simp [is_same_city, hcity]
  have hiff : (checkin_pair_check tbl max_travel_speed min_travel_hours
      min_suspicious_distance event1 event2).isSome ↔
      min |event2.time_window.earliest_start - event1.time_window.latest_end|
          |event1.time_window.earliest_start - event2.time_window.latest_end|
        < d / max_travel_speed + min_travel_hours := by
    simp only [checkin_pair_check, hsc, h1, h2, hd, Bool.false_eq_true,
      if_false, time_difference_hours]
    rw [if_neg (not_lt.mpr hmin)]
    set req := d / max_travel_speed + min_travel_hours with hreq
    set d1 := |event2.time_window.earliest_start - event1.time_window.latest_end|
      with hd1
    set d2 := |event1.time_window.earliest_start - event2.time_window.latest_end|
      with hd2
    by_cases hcase : req ≤ d1
    · rw [if_pos hcase]
      by_cases hflag : d2 < req
      · rw [if_pos hflag]
        simp [min_lt_iff, hflag]
      · rw [if_neg hflag]
        simp only [Option.isSome_none, Bool.false_eq_true, false_iff, min_lt_iff,
          not_or]
        exact ⟨not_lt.mpr hcase, hflag⟩
    · rw [if_neg hcase]
      have hflag : d1 < req := not_le.mp hcase
      rw [if_pos hflag]
      simp [min_lt_iff, hflag]
  refine ⟨hiff, fun heq => ?_⟩
  have : ¬(min |event2.time_window.earliest_start - event1.time_window.latest_end|
      |event1.time_window.earliest_start - event2.time_window.latest_end|
      < d / max_travel_speed + min_travel_hours) := by
    rw [heq]
    exact lt_irrefl _
  have hnone := (not_iff_not.mpr hiff).mpr this
  simpa [Option.not_isSome_iff_eq_none] using hnone

/-- Witness for C5, at the exact boundary: cities 200 km apart, speed 200 km/h
plus a 1 h buffer requires 2 h; the available time is exactly 2 h
(`latest_end` 02:00 to `earliest_start` 04:00), so no pair is produced. -/
theorem checkin_threshold_boundary_witness :
    checkin_pair_check [(("A", "B"), 200)] 200 1 150
      { kind := .dailyCheckIn, event_id := "C1", user_id := "u1",
        time_window := { earliest_start := 0, latest_end := 2 },
        location := some { city := "A" } }
      { kind := .dailyCheckIn, event_id := "C2", user_id := "u1",
        time_window := { earliest_start := 4, latest_end := 5 },
        location := some { city := "B" } } = none :=
  (checkin_threshold_boundary [(("A", "B"), 200)] 200 1 150 _ _
      { city := "A" } { city := "B" } 200 rfl rfl (by decide) (by decide)
      (by norm_num)).2 (by norm_num)

/-- The finding `detect_impossible_travel` produces from `cexE1` / `cexE2`. -/
def cexFinding : ImpFinding :=
  { primary_event_id := "E2", user_id := "u1", user_name := "U",
    first_event_id := "E1", first_event_time := 10, first_event_city := "A",
    second_event_id := "E2", second_event_time := 1,
    second_event_city := "B", time_between_events_hours := -9,
    min_travel_time_hours := 1, distance_km := 100 }

/-- **C1, counterexample**: the claim says every rule flags travel between two
uncertain-bounded observations only when it is impossible under *every*
resolution within the stated bounds.  `detect_impossible_travel`
(`fd_impossible_sequence.py` lines 64-69) instead compares
`event2.earliest_start - event1.latest_end`, the *least* favorable gap: on the
concrete pair below (cities 100 km apart, minimum travel time 1 h at the
rule's 100 km/h) it produces a finding, although resolving event1's end to
00:00 and event2's start to 11:00 — both within the stated bounds — leaves
11 h, far more than the required 1 h. -/
theorem impossible_travel_flags_feasible_resolution :
    detect_impossible_travel tblAB [cexE1, cexE2] {} = .ok (some [cexFinding]) ∧
    cexE1.time_window.earliest_start ≤ 0 ∧
    (0 : ℚ) ≤ cexE1.time_window.latest_end ∧
    cexE2.time_window.earliest_start ≤ 11 ∧
    (11 : ℚ) ≤ cexE2.time_window.latest_end ∧
    (100 : ℚ) / 100 ≤ 11 - 0 := by
  refine ⟨?_, by decide, by decide, by decide, by decide, by norm_num⟩
  have hAB : (("A" : String) = "B") = False := by simp
  norm_num [detect_impossible_travel, tblAB, cexE1, cexE2, cexFinding,
    groupByUser, addToUserGroup, impossible_users_loop, impossible_user_step,
    sort_by_earliest_start, List.insertionSort, List.orderedInsert,
    is_transport_event, impossible_pairs_loop, impossible_pair_step,
    is_same_city, lookup_distance, has_transport_explanation, List.find?, hAB]

/-- **C1, amended**: `detect_ubiquitous_presence`
(`src/llm_rules/fd_ubiquitous_presence.py` lines 81-95) does use the most
favorable-to-user pairing: whenever its pair check records a distant city pair
as impossible, then for *every* resolution placing the user in the first city
at a time within that city's observed span and in the second city at a time
within its span, the available travel time stays strictly below the recorded
minimum travel time — so that rule flags only what is impossible under every
resolution.  (`detect_impossible_travel` does not share this property; see
the counterexample.) -/
theorem ubiquitous_pair_flag_infeasible_all_resolutions (tbl : DistTable)
    (min_city_distance_km max_travel_speed_kmh : ℚ) (city1 city2 : String)
    (events1 events2 : List Event) (r : UbiqPairRecord)
    (hr : ubiquitous_pair_check tbl min_city_distance_km max_travel_speed_kmh
      city1 city2 events1 events2 = some r)
    (a b : ℚ)
    (ha1 : pyMin (ubiq_times events1) ≤ a) (ha2 : a ≤ pyMax (ubiq_times events1))
    (hb1 : pyMin (ubiq_times events2) ≤ b) (hb2 : b ≤ pyMax (ubiq_times events2)) :
    |b - a| < r.min_travel_time_hours := by
  cases events1 with
  | nil => simp [ubiquitous_pair_check] at hr
  | cons e1 t1 =>
    cases events2 with
    | nil => simp [ubiquitous_pair_check] at hr
    | cons e2 t2 =>
      cases hdist : get_distance tbl e1.location e2.location with
      | none => simp [ubiquitous_pair_check, hdist] at hr
      | some d =>
        simp only [ubiquitous_pair_check, hdist] at hr
        by_cases hsmall : d < min_city_distance_km
        · rw [if_pos hsmall] at hr
          exact absurd hr (by simp)
        · rw [if_neg hsmall] at hr
          by_cases hflag :
              max |time_difference_hours (pyMin (ubiq_times (e1 :: t1)))
                    (pyMax (ubiq_times (e2 :: t2)))|
                  |time_difference_hours (pyMin (ubiq_times (e2 :: t2)))
                    (pyMax (ubiq_times (e1 :: t1)))|
                < d / max_travel_speed_kmh
          · rw [if_pos hflag] at hr
            have hrec : r.min_travel_time_hours = d / max_travel_speed_kmh := by
              cases hr
              rfl
            rw [hrec]
            refine lt_of_le_of_lt ?_ hflag
            rw [abs_sub_le_iff]
            constructor
            · refine le_trans ?_ (le_max_left _ _)
              refine le_trans ?_ (le_abs_self _)
              simp only [time_difference_hours]
              linarith
            · refine le_trans ?_ (le_max_right _ _)
              refine le_trans ?_ (le_abs_self _)
              simp only [time_difference_hours]
              linarith
          · rw [if_neg hflag] at hr
            exact absurd hr (by simp)

/-- Witness for the amended C1 theorem: cities `"P"`/`"Q"` 600 km apart, one
event in each within the same hour; the pair check records the pair, and any
concrete resolution (here 00:00 in `"P"`, 01:00 in `"Q"`) indeed leaves at
most 1 h, below the 1.2 h minimum travel time. -/
theorem ubiquitous_pair_flag_infeasible_witness :
    |(1 : ℚ) - 0| < rPQ.min_travel_time_hours :=
  ubiquitous_pair_flag_infeasible_all_resolutions tblPQ 500 500 "P" "Q"
    [eP] [eQ] rPQ
    (by norm_num [ubiquitous_pair_check, get_distance, lookup_distance, tblPQ,
      eP, eQ, rPQ, pyMin, pyMax, ubiq_times, time_difference_hours])
    0 1 (by decide) (by decide) (by decide) (by decide)

/-- **C2, counterexample**: the claim says a rule produces no finding from a
city pair absent from its distance table.  `get_city_distance` of
`src/llm-rules-partial-functions/rules/fd_ubiquitous_presence.py` (lines
30-40) instead substitutes `float('inf')` for such a pair, and
`detect_ubiquitous_presence` then flags it: with two same-day check-ins in
`"杭州市"` and `"西安市"` — a pair not in `CITY_DISTANCES` — the detection
reports a fraud instance built from that very pair (with infinite distance
and infinite minimum travel time), instead of skipping the comparison. -/
theorem unknown_pair_is_flagged :
    lookup_distance CITY_DISTANCES "杭州市" "西安市" = none ∧
    detect_ubiquitous_presence_nf [nfE1, nfE2] {} = some [nfInstance] := by
  constructor
  · decide
  · have hdist : get_city_distance "杭州市" "西安市" = FDist.inf := by decide
    have hc1 : (("杭州市" : String) = "") = False := by simp
    have hc2 : (("西安市" : String) = "") = False := by simp
    have hc3 : (("西安市" : String) = "杭州市") = False := by simp
    have hc4 : (("杭州市" : String) = "西安市") = False := by simp
    norm_num [detect_ubiquitous_presence_nf, nfE1, nfE2, nfInstance, nfPair,
      groupByUser, addToUserGroup, groupByDate, addToDateGroup, dateOf,
      ubiq_nf_user_step, ubiq_nf_date_step, groupByCity, addToCityGroup,
      ubiq_nf_pairs_loop, ubiq_nf_pair, hdist, hc1, hc2, hc3, hc4,
      FDist.gtQ, FDist.divQ, FDist.qLt, MAX_REASONABLE_DAILY_TRAVEL_KM,
      sort_by_earliest_start, List.insertionSort, List.orderedInsert,
      List.filterMap_cons]

/-- **C2, amended**: rules that obtain distances through `rule.get_distance`
(which yields `None` for unknown pairs) do skip the comparison — e.g. the
pair check of `fd_checkin_different_cities_same_day.py` lines 79-81 produces
no pair record when the lookup fails; but `get_city_distance` of
`src/llm-rules-partial-functions/rules/fd_ubiquitous_presence.py` substitutes
an infinite default for unknown pairs, which that rule then treats as an
unreachable distance (see the counterexample). -/
theorem unknown_distance_policy :
    (∀ (tbl : DistTable) (speed buffer minsusp : ℚ) (event1 event2 : Event)
        (l1 l2 : Location),
        event1.location = some l1 → event2.location = some l2 →
        lookup_distance tbl l1.city l2.city = none →
        checkin_pair_check tbl speed buffer minsusp event1 event2 = none) ∧
    (∀ c1 c2 : String,
        CITY_DISTANCES.find? (fun p => p.1.1 == c1 && p.1.2 == c2) = none →
        CITY_DISTANCES.find? (fun p => p.1.1 == c2 && p.1.2 == c1) = none →
        get_city_distance c1 c2 = FDist.inf) := by
  constructor
  · intro tbl speed buffer minsusp event1 event2 l1 l2 h1 h2 hd
    by_cases hsc : is_same_city event1.location event2.location = true
    · simp [checkin_pair_check, hsc]
    · simp [checkin_pair_check, hsc, h1, h2, hd]
  · intro c1 c2 hf1 hf2
    simp [get_city_distance, hf1, hf2]

/-- Witness for the amended C2 theorem: an empty distance table knows no pair,
so the check-in pair check skips the `"杭州市"`/`"西安市"` pair, while
`get_city_distance` maps the same unknown pair to infinity. -/
theorem unknown_distance_policy_witness :
    checkin_pair_check [] 200 1 150 nfE1 nfE2 = none ∧
    get_city_distance "杭州市" "西安市" = FDist.inf :=
  ⟨unknown_distance_policy.1 [] 200 1 150 nfE1 nfE2 { city := "杭州市" }
      { city := "西安市" } rfl rfl rfl,
   unknown_distance_policy.2 "杭州市" "西安市" (by decide) (by decide)⟩

/-- **C9**: on a daily candidate group in which a single user has at least 3
`TaxiEvent`s (with the default `sequential_taxi_min_rides`),
`detect_sequential_taxi_rides` raises `AttributeError`: the sort key of line
46 reads `e.time_interval.earliest_start` while trajectory events carry
`time_window`, so the rule can produce neither a finding nor a clean
`False` on such groups. -/
theorem sequential_taxi_raises_attribute_error (events : List Event)
    (u : String) (ctx : Context)
    (hall : ∀ e ∈ events, e.kind = .taxi ∧ e.user_id = u)
    (hlen : 3 ≤ events.length)
    (hctx : ctx.sequential_taxi_min_rides = none) :
    detect_sequential_taxi_rides events ctx = .error .attributeError := by
  have hfilter : events.filter (fun e => e.kind == .taxi) = events := by
    rw [List.filter_eq_self]
    intro a ha
    simp [(hall a ha).1]
  have hne : events ≠ [] := by
    intro h
    rw [h] at hlen
    simp at hlen
  have hgroup : groupByUser events = [(u, events)] :=
    groupByUser_const u events hne (fun e he => (hall e he).2)
  cases events with
  | nil => exact absurd rfl hne
  | cons e t =>
    simp only [detect_sequential_taxi_rides, hfilter, hctx, Option.getD_some,
      Option.getD_none, hgroup]
    rw [if_neg (by simpa using hlen)]
    simp only [seq_taxi_users_loop, seq_taxi_user_step]
    rw [if_neg (by simpa using hlen)]
    simp [sorted_by_time_interval]

/-- Witness for C9: three taxi rides of one user under the default context
make the rule raise `AttributeError`. -/
theorem sequential_taxi_raises_attribute_error_witness :
    detect_sequential_taxi_rides [taxi1, taxi2, taxi3] {} =
      .error .attributeError :=
  sequential_taxi_raises_attribute_error [taxi1, taxi2, taxi3] "u1" {}
    (by decide) (by decide) rfl

/-- **C10**: whenever the group of one user holds two non-transport events in
different, known-distance cities that are closer in time (by the rule's
`earliest_start₂ - latest_end₁` measure) than the minimum travel time,
together with a transport event whose earliest start is at or after the first
event's earliest start, `detect_impossible_travel` evaluates
`event2.time_window.latest_start` — an attribute the time-window type does
not have — and raises `AttributeError` instead of returning the suspicious
sequence it was about to build. -/
theorem impossible_travel_raises_attribute_error (tbl : DistTable)
    (u : String) (ctx : Context) (e1 e2 tr : Event) (l1 l2 : Location) (d : ℚ)
    (hu1 : e1.user_id = u) (hu2 : e2.user_id = u) (hu3 : tr.user_id = u)
    (ht1 : is_transport_event e1 = false) (ht2 : is_transport_event e2 = false)
    (ht3 : is_transport_event tr = true)
    (hs1 : e1.time_window.earliest_start ≤ e2.time_window.earliest_start)
    (hs2 : e2.time_window.earliest_start ≤ tr.time_window.earliest_start)
    (hl1 : e1.location = some l1) (hl2 : e2.location = some l2)
    (hcity : l1.city ≠ l2.city)
    (hd : lookup_distance tbl l1.city l2.city = some d)
    (hgap : e2.time_window.earliest_start - e1.time_window.latest_end < d / 100) :
    detect_impossible_travel tbl [e1, e2, tr] ctx = .error .attributeError := by
  have hmem : ∀ e ∈ [e1, e2, tr], e.user_id = u := by
    intro e he
    simp only [List.mem_cons, List.not_mem_nil, or_false] at he
    rcases he with rfl | rfl | rfl
    · exact hu1
    · exact hu2
    · exact hu3
  have hgroup : groupByUser [e1, e2, tr] = [(u, [e1, e2, tr])] :=
    groupByUser_const u [e1, e2, tr] (by simp) hmem
  have hsorted : sort_by_earliest_start [e1, e2, tr] = [e1, e2, tr] := by
    simp [sort_by_earliest_start, List.insertionSort, List.orderedInsert,
      hs1, hs2, hs1.trans hs2]
  have hsc : is_same_city (some l1) (some l2) = false := by
    simp [is_same_city, hcity]
  have hexp : has_transport_explanation [tr] e1 = .error .attributeError := by
    simp [has_transport_explanation, hs1.trans hs2]
  simp only [detect_impossible_travel, List.length_cons, List.length_nil,
    hgroup]
  rw [if_neg (by omega)]
  simp only [impossible_users_loop, impossible_user_step, List.length_cons,
    List.length_nil, hsorted]
  rw [if_neg (by omega)]
  simp only [List.filter_cons, List.filter_nil, ht1, ht2, ht3,
    Bool.false_eq_true, if_false, if_true, cond_false, cond_true]
  simp only [impossible_pairs_loop, impossible_pair_step, hl1, hl2, hsc,
    Bool.false_eq_true, if_false, hd]
  rw [if_pos hgap, hexp]

/-- Witness for C10: user `"u1"` has check-ins in cities `"A"` and `"B"`
(100 km apart, 1 h minimum travel time, only -9 h available) and a flight with
a later earliest start; the rule raises `AttributeError`. -/
theorem impossible_travel_raises_attribute_error_witness :
    detect_impossible_travel tblAB [cexE1, cexE2, cexTr] {} =
      .error .attributeError :=
  impossible_travel_raises_attribute_error tblAB "u1" {} cexE1 cexE2 cexTr
    { city := "A" } { city := "B" } 100 rfl rfl rfl rfl rfl rfl (by decide)
    (by decide) rfl rfl (by decide) (by decide) (by norm_num [cexE1, cexE2])

end ExpenseCbr
